import Mathlib

/-!
Shallow embedding of the Secure-Bank ledger and access-delegation engine.

The definitions below are translated from the Flask route handlers and
service modules of the repository:
  app/routes/user.py      (deposit, withdraw, transfer, grant_access, deny_access)
  app/routes/admin.py     (request_access, view_user_account)
  app/services/token.py   (generate_permission_token, verify_permission_token)
  app/ml_models/fraud_detection.py (rule-based scoring, predict_fraud)

Modelling conventions:
  * MongoDB documents become Lean structures; a collection is a list of
    documents; find_one is List.find? and update_one updates the first
    matching list element (Mongo object ids are unique, and update_one
    touches a single document).
  * Monetary amounts are rationals: the Python source computes on floats,
    which the embedding replaces by exact arithmetic.
  * Wall-clock instants (datetime.utcnow) are natural-number timestamps
    threaded in as explicit parameters: now, the hour of day, and the
    start-of-day instant used for the same-day transaction count.
  * The JWT permission token is modelled as its payload plus the secret it
    was signed with; signature verification succeeds exactly when the
    verifying secret equals the signing secret, and pyjwt rejects a token
    whose exp field is not in the future.
  * The isolation-forest branch of predict_fraud (model loading and
    prediction, which can raise) is modelled as an oracle returning Except;
    the try/except of the Python source becomes a match on that Except.
  * Side effects on external ports (notification emails, audit log writes)
    are fire-and-forget in the source and do not feed back into the core
    state, so they are not part of the embedded state.
-/

namespace SecureBank

/-- Direction of a ledger entry. -/
inductive TxnType where
  | credit
  | debit
deriving DecidableEq, Repr

/-- Role stored on a user document. -/
inductive Role where
  | user
  | admin
deriving DecidableEq, Repr

/-- Status of an access request document. -/
inductive ReqStatus where
  | pending
  | granted
  | denied
  | expired
deriving DecidableEq, Repr

/-- A user document (app users collection): only the fields the core
reads or writes; name, email and phone feed the notification port only. -/
structure Account where
  id : Nat
  accountNumber : Nat
  role : Role
  balance : ℚ
  isActive : Bool
deriving DecidableEq, Repr

/-- A transaction document, as inserted by deposit, withdraw and transfer. -/
structure Txn where
  user_id : Nat
  type : TxnType
  amount : ℚ
  description : String
  balance_after : ℚ
  related_account : Option Nat
  is_flagged : Bool
  fraud_score : ℚ
  timestamp : Nat
deriving DecidableEq, Repr

/-- Payload of a permission token (token.py, generate_permission_token). -/
structure TokenPayload where
  admin_id : Nat
  user_id : Nat
  request_id : Nat
  iat : Nat
  exp : Nat
deriving DecidableEq, Repr

/-- A signed JWT: payload plus the secret used by the HMAC signature.
Verification against a secret succeeds exactly when the secrets agree. -/
structure SignedToken where
  payload : TokenPayload
  signedWith : Nat
deriving DecidableEq, Repr

/-- An access request document (app access_requests collection). -/
structure AccessReq where
  id : Nat
  admin_id : Nat
  user_id : Nat
  reason : String
  status : ReqStatus
  permission_token : Option SignedToken
  requested_at : Nat
  expires_at : Nat
  granted_at : Option Nat
  denied_at : Option Nat
deriving DecidableEq, Repr

/-- The mutable database state: the three collections the core touches.
nextReqId models Mongo generating a fresh object id on insert. -/
structure BankState where
  users : List Account
  transactions : List Txn
  accessReqs : List AccessReq
  nextReqId : Nat
deriving DecidableEq, Repr

/-- update_one on a collection: rewrite the first document matching p. -/
def updateFirst (p : α → Bool) (f : α → α) : List α → List α
  | [] => []
  | x :: xs => if p x then f x :: xs else x :: updateFirst p f xs

/-- find_one({_id: uid}) on the users collection. -/
def find_user_by_id (s : BankState) (uid : Nat) : Option Account :=
  s.users.find? (fun u => u.id == uid)

/-- find_one({account_number: acct}) on the users collection. -/
def find_user_by_acct (s : BankState) (acct : Nat) : Option Account :=
  s.users.find? (fun u => u.accountNumber == acct)

/-- update_one({_id: uid}, {set balance}) on the users collection. -/
def set_balance (s : BankState) (uid : Nat) (b : ℚ) : BankState :=
  { s with users := updateFirst (fun u => u.id == uid) (fun u => { u with balance := b }) s.users }

/-- insert_one on the transactions collection. -/
def add_txn (s : BankState) (t : Txn) : BankState :=
  { s with transactions := s.transactions ++ [t] }

/-! ### Fraud scoring (app/ml_models/fraud_detection.py) -/

/-- The four-field scoring context withdraw builds for predict_fraud. -/
structure FraudCtx where
  amount : ℚ
  hour : Nat
  balance_before : ℚ
  transaction_count_today : Nat
deriving DecidableEq, Repr

/-- Verdict returned by predict_fraud. -/
structure FraudVerdict where
  is_fraud : Bool
  fraud_score : ℚ
  model : String
deriving DecidableEq, Repr

/-- Python round(x, 4): round to four decimal places. Python ties go to
even; every score this code produces is an exact multiple of 1/20, on
which any rounding to four places is the identity, so Lean round is used. -/
def roundTo4 (q : ℚ) : ℚ :=
  (round (q * 10000) : ℤ) / 10000

/-- Rule-based fraud score: each triggered condition adds its fixed
weight, and the sum is capped at 1. -/
def rule_based_fraud_score (data : FraudCtx) : ℚ :=
  let score : ℚ := 0
  let score := if 0 < data.balance_before ∧ 4/5 < data.amount / data.balance_before then
    score + 3/10 else score
  let score := if 0 ≤ data.hour ∧ data.hour ≤ 5 then score + 1/5 else score
  let score := if 10 < data.transaction_count_today then score + 1/4 else score
  let score := if 100000 < data.amount then score + 1/4 else score
  min score 1

/-- predict_fraud. modelOnDisk is os.path.exists(MODEL_PATH); modelRun is
the fallible load-and-predict step of the isolation-forest branch,
returning the raw prediction and decision-function value, or an error for
any exception raised inside the try block. An error yields the safe
default verdict; with no model on disk the rule-based fallback runs, with
flagging threshold one half. -/
def predict_fraud (modelOnDisk : Bool) (modelRun : FraudCtx → Except String (Int × ℚ))
    (transaction_data : FraudCtx) : FraudVerdict :=
  if modelOnDisk then
    match modelRun transaction_data with
    | Except.ok (prediction, rawScore) =>
      let normalized_score := max 0 (min 1 ((1 - rawScore) / 2))
      { is_fraud := prediction == -1
        fraud_score := roundTo4 normalized_score
        model := "isolation_forest" }
    | Except.error _ =>
      { is_fraud := false, fraud_score := 0, model := "fallback_error" }
  else
    let score := rule_based_fraud_score transaction_data
    { is_fraud := decide (1/2 ≤ score)
      fraud_score := roundTo4 score
      model := "rule_based" }

/-! ### Permission tokens (app/services/token.py) -/

/-- generate_permission_token: 30-minute (1800-second) validity. -/
def generate_permission_token (secret admin_id user_id request_id now : Nat) : SignedToken :=
  { payload := { admin_id := admin_id, user_id := user_id, request_id := request_id,
                 iat := now, exp := now + 1800 }
    signedWith := secret }

/-- verify_permission_token: none on a bad signature (InvalidTokenError)
or an exp not in the future (ExpiredSignatureError), else the payload. -/
def verify_permission_token (secret : Nat) (now : Nat) (token : SignedToken) :
    Option TokenPayload :=
  if token.signedWith == secret then
    if token.payload.exp ≤ now then none else some token.payload
  else none

/-! ### Ledger routes (app/routes/user.py) -/

/-- Outcomes of the deposit route. noSuchUser marks the point where the
Python handler would crash on a missing user document (unreachable for an
authenticated caller); no write has happened by then. -/
inductive DepositResp where
  | amountNotPositive
  | overLimit
  | noSuchUser
  | ok (amount new_balance : ℚ)
deriving DecidableEq, Repr

/-- deposit: reject amount ≤ 0 and amount > 1000000, else credit the
balance and insert one credit transaction, unflagged with score 0. -/
def deposit (s : BankState) (uid : Nat) (amount : ℚ) (description : String)
    (now : Nat) : BankState × DepositResp :=
  if amount ≤ 0 then (s, DepositResp.amountNotPositive)
  else if 1000000 < amount then (s, DepositResp.overLimit)
  else
    match find_user_by_id s uid with
    | none => (s, DepositResp.noSuchUser)
    | some u =>
      let new_balance := u.balance + amount
      let s1 := set_balance s uid new_balance
      let t : Txn :=
        { user_id := uid, type := TxnType.credit, amount := amount,
          description := description, balance_after := new_balance,
          related_account := none, is_flagged := false, fraud_score := 0,
          timestamp := now }
      (add_txn s1 t, DepositResp.ok amount new_balance)

/-- Outcomes of the withdraw route. -/
inductive WithdrawResp where
  | amountNotPositive
  | noSuchUser
  | insufficient
  | ok (amount new_balance : ℚ) (flagged : Bool)
deriving DecidableEq, Repr

/-- withdraw: reject amount ≤ 0 and balance < amount; otherwise score the
debit with predict_fraud over the four-field context (the same-day count
is the number of stored transactions of this user stamped at or after the
start of the current day), debit the balance, and insert one debit
transaction carrying the verdict. A flagged withdrawal still completes. -/
def withdraw (s : BankState) (uid : Nat) (amount : ℚ) (description : String)
    (now hour dayStart : Nat) (modelOnDisk : Bool)
    (modelRun : FraudCtx → Except String (Int × ℚ)) : BankState × WithdrawResp :=
  if amount ≤ 0 then (s, WithdrawResp.amountNotPositive)
  else
    match find_user_by_id s uid with
    | none => (s, WithdrawResp.noSuchUser)
    | some u =>
      if u.balance < amount then (s, WithdrawResp.insufficient)
      else
        let new_balance := u.balance - amount
        let ctx : FraudCtx :=
          { amount := amount, hour := hour, balance_before := u.balance,
            transaction_count_today :=
              (s.transactions.filter
                (fun t => t.user_id == uid && decide (dayStart ≤ t.timestamp))).length }
        let fr := predict_fraud modelOnDisk modelRun ctx
        let s1 := set_balance s uid new_balance
        let t : Txn :=
          { user_id := uid, type := TxnType.debit, amount := amount,
            description := description, balance_after := new_balance,
            related_account := none, is_flagged := fr.is_fraud,
            fraud_score := fr.fraud_score, timestamp := now }
        (add_txn s1 t, WithdrawResp.ok amount new_balance fr.is_fraud)

/-- Outcomes of the transfer route. -/
inductive TransferResp where
  | recipientRequired
  | amountNotPositive
  | noSuchSender
  | recipientNotFound
  | selfTransfer
  | insufficient
  | ok (amount sender_new_balance : ℚ)
deriving DecidableEq, Repr

/-- transfer: validate, debit the sender, credit the recipient, then insert
the two cross-referencing transactions sharing one timestamp. -/
def transfer (s : BankState) (sender_id : Nat) (to_account : Option Nat)
    (amount : ℚ) (description : String) (now : Nat) : BankState × TransferResp :=
  match to_account with
  | none => (s, TransferResp.recipientRequired)
  | some to_acct =>
    if amount ≤ 0 then (s, TransferResp.amountNotPositive)
    else
      match find_user_by_id s sender_id with
      | none => (s, TransferResp.noSuchSender)
      | some sender =>
        match find_user_by_acct s to_acct with
        | none => (s, TransferResp.recipientNotFound)
        | some recipient =>
          if sender.id == recipient.id then (s, TransferResp.selfTransfer)
          else if sender.balance < amount then (s, TransferResp.insufficient)
          else
            let sender_new_balance := sender.balance - amount
            let recipient_new_balance := recipient.balance + amount
            let s1 := set_balance s sender.id sender_new_balance
            let s2 := set_balance s1 recipient.id recipient_new_balance
            let t1 : Txn :=
              { user_id := sender.id, type := TxnType.debit, amount := amount,
                description := "Transfer to " ++ toString recipient.accountNumber
                  ++ " - " ++ description,
                balance_after := sender_new_balance,
                related_account := some to_acct, is_flagged := false,
                fraud_score := 0, timestamp := now }
            let t2 : Txn :=
              { user_id := recipient.id, type := TxnType.credit, amount := amount,
                description := "Transfer from " ++ toString sender.accountNumber
                  ++ " - " ++ description,
                balance_after := recipient_new_balance,
                related_account := some sender.accountNumber, is_flagged := false,
                fraud_score := 0, timestamp := now }
            (add_txn (add_txn s2 t1) t2,
             TransferResp.ok amount sender_new_balance)

/-! ### Access delegation (app/routes/admin.py and user.py) -/

/-- Python str.strip as used on the request reason: drop whitespace from
both ends. (String.trim of the core library is extern-implemented and not
kernel-reducible, so the list-level equivalent is spelled out.) -/
def pyStrip (s : String) : String :=
  String.mk
    (((s.data.dropWhile Char.isWhitespace).reverse.dropWhile Char.isWhitespace).reverse)

/-- Outcomes of the admin request-access route. -/
inductive RequestAccessResp where
  | invalidReason
  | userNotFound
  | duplicatePending
  | created (request_id : Nat)
deriving DecidableEq, Repr

/-- request_access: reject a stripped reason shorter than 10 characters,
an unknown (or non-user-role) target, and a still-pending earlier request
by the same admin for the same user; else insert a fresh pending request
expiring 24 hours (86400 seconds) after now. -/
def request_access (s : BankState) (admin_id : Nat) (target_user_id : Nat)
    (reason : String) (now : Nat) : BankState × RequestAccessResp :=
  let reason := pyStrip reason
  if reason.length < 10 then (s, RequestAccessResp.invalidReason)
  else
    match s.users.find? (fun u => u.id == target_user_id && u.role == Role.user) with
    | none => (s, RequestAccessResp.userNotFound)
    | some _ =>
      match s.accessReqs.find? (fun r =>
          r.admin_id == admin_id && r.user_id == target_user_id
            && r.status == ReqStatus.pending) with
      | some _ => (s, RequestAccessResp.duplicatePending)
      | none =>
        let req : AccessReq :=
          { id := s.nextReqId, admin_id := admin_id, user_id := target_user_id,
            reason := reason, status := ReqStatus.pending, permission_token := none,
            requested_at := now, expires_at := now + 86400,
            granted_at := none, denied_at := none }
        ({ s with accessReqs := s.accessReqs ++ [req], nextReqId := s.nextReqId + 1 },
         RequestAccessResp.created s.nextReqId)

/-- Outcomes of the grant-access route. -/
inductive GrantResp where
  | notFound
  | notPending (st : ReqStatus)
  | expired
  | ok
deriving DecidableEq, Repr

/-- grant_access: on a pending, unexpired request, issue the permission
token and set the request to granted; on a pending request past its
expiry, flip it to expired and report the expiry error. -/
def grant_access (s : BankState) (secret : Nat) (request_id : Nat) (now : Nat) :
    BankState × GrantResp :=
  match s.accessReqs.find? (fun r => r.id == request_id) with
  | none => (s, GrantResp.notFound)
  | some req =>
    if req.status ≠ ReqStatus.pending then (s, GrantResp.notPending req.status)
    else if req.expires_at < now then
      let reqs := updateFirst (fun r => r.id == request_id)
        (fun r => { r with status := ReqStatus.expired }) s.accessReqs
      ({ s with accessReqs := reqs }, GrantResp.expired)
    else
      let tok := generate_permission_token secret req.admin_id req.user_id request_id now
      let reqs := updateFirst (fun r => r.id == request_id)
        (fun r => { r with status := ReqStatus.granted,
                           permission_token := some tok,
                           granted_at := some now }) s.accessReqs
      ({ s with accessReqs := reqs }, GrantResp.ok)

/-- Outcomes of the deny-access route. -/
inductive DenyResp where
  | notFound
  | notPending (st : ReqStatus)
  | ok
deriving DecidableEq, Repr

/-- deny_access: set a pending request to denied. The handler performs no
expiry check: unlike grant_access there is no expires_at comparison. -/
def deny_access (s : BankState) (request_id : Nat) (now : Nat) :
    BankState × DenyResp :=
  match s.accessReqs.find? (fun r => r.id == request_id) with
  | none => (s, DenyResp.notFound)
  | some req =>
    if req.status ≠ ReqStatus.pending then (s, DenyResp.notPending req.status)
    else
      let reqs := updateFirst (fun r => r.id == request_id)
        (fun r => { r with status := ReqStatus.denied,
                           denied_at := some now }) s.accessReqs
      ({ s with accessReqs := reqs }, DenyResp.ok)

/-- The grant route as reached over HTTP: it carries no jwt_required
decorator and never reads any caller identity, so the handler runs
identically for every caller; callerId records who clicked the link. -/
def grant_access_as (_callerId : Nat) (s : BankState) (secret : Nat)
    (request_id : Nat) (now : Nat) : BankState × GrantResp :=
  grant_access s secret request_id now

/-- The deny route as reached over HTTP, likewise unauthenticated. -/
def deny_access_as (_callerId : Nat) (s : BankState) (request_id : Nat)
    (now : Nat) : BankState × DenyResp :=
  deny_access s request_id now

/-- Outcomes of the admin view-user-account route. -/
inductive ViewResp where
  | tokenRequired
  | tokenInvalid
  | tokenMismatch
  | accessRevoked
  | userNotFound
  | ok
deriving DecidableEq, Repr

/-- view_user_account: require the header token, verify it, match its
embedded admin and user ids against the caller identity and requested
user, require the backing access request to still be granted, then serve
the read-only view. The route writes nothing to the core state. -/
def view_user_account (s : BankState) (secret : Nat) (identity_user_id : Nat)
    (user_id : Nat) (token_header : Option SignedToken) (now : Nat) : ViewResp :=
  match token_header with
  | none => ViewResp.tokenRequired
  | some tok =>
    match verify_permission_token secret now tok with
    | none => ViewResp.tokenInvalid
    | some payload =>
      if payload.admin_id ≠ identity_user_id ∨ payload.user_id ≠ user_id then
        ViewResp.tokenMismatch
      else
        match s.accessReqs.find? (fun r =>
            r.id == payload.request_id && r.status == ReqStatus.granted) with
        | none => ViewResp.accessRevoked
        | some _ =>
          match find_user_by_id s user_id with
          | none => ViewResp.userNotFound
          | some _ => ViewResp.ok

/-! ### Invariant predicates and example states -/

/-- The pending requests of one (admin, account) pair. -/
def pendingFor (a u : Nat) (s : BankState) : List AccessReq :=
  s.accessReqs.filter (fun r =>
    r.admin_id == a && r.user_id == u && r.status == ReqStatus.pending)

/-- At most one pending access request per (admin, account) pair. -/
def atMostOnePending (s : BankState) : Prop :=
  ∀ a u, (pendingFor a u s).length ≤ 1

/-- A sample user account with balance 1500. -/
def exAccount : Account :=
  { id := 1, accountNumber := 11, role := Role.user, balance := 1500, isActive := true }

/-- A sample earlier debit stamped inside the current day. -/
def exEarlierTxn : Txn :=
  { user_id := 1, type := TxnType.debit, amount := 1, description := "d",
    balance_after := 1, related_account := none, is_flagged := false,
    fraud_score := 0, timestamp := 5 }

/-- A second sample user account with balance 100, account number 22. -/
def exRecipient : Account :=
  { id := 2, accountNumber := 22, role := Role.user, balance := 100, isActive := true }

/-- A state with the two sample accounts and no history. -/
def exTwoUserState : BankState :=
  { users := [exAccount, exRecipient], transactions := [], accessReqs := [],
    nextReqId := 0 }

/-- A pending access request from admin 5 for account 1, expiring at 10. -/
def exPendingReq : AccessReq :=
  { id := 0, admin_id := 5, user_id := 1, reason := "0123456789",
    status := ReqStatus.pending, permission_token := none,
    requested_at := 0, expires_at := 10, granted_at := none, denied_at := none }

/-- State holding one expired-but-still-pending access request. -/
def exExpiredPendingState : BankState :=
  { users := [exAccount], transactions := [], accessReqs := [exPendingReq],
    nextReqId := 1 }

/-- State holding one pending access request that expires at 1000. -/
def exLivePendingState : BankState :=
  { users := [exAccount],
    transactions := [],
    accessReqs := [{ exPendingReq with expires_at := 1000 }],
    nextReqId := 1 }

/-- State for the spec example scenario: balance 1500 and twelve
transactions already stored for the account today. -/
def exScenarioState : BankState :=
  { users := [exAccount], transactions := List.replicate 12 exEarlierTxn,
    accessReqs := [], nextReqId := 0 }

/-- A model-run oracle that always fails, standing for a scoring fault. -/
def exFailingModelRun : FraudCtx → Except String (Int × ℚ) :=
  fun _ => Except.error "model fault"

/-! ### Helper lemmas about find? and updateFirst -/

theorem find?_updateFirst_self (p : α → Bool) (f : α → α)
    (hf : ∀ x, p (f x) = p x) :
    ∀ l : List α, (updateFirst p f l).find? p = (l.find? p).map f := by
  intro l
  induction l with
  | nil => rfl
  | cons x xs ih =>
    by_cases hx : p x = true
    · simp [updateFirst, hx, List.find?_cons, hf x]
    · simp only [Bool.not_eq_true] at hx
      simp [updateFirst, hx, List.find?_cons, ih]

theorem find?_updateFirst_of_disjoint (p q : α → Bool) (f : α → α)
    (hf : ∀ x, p (f x) = p x) (hpq : ∀ x, p x = true → q x = false) :
    ∀ l : List α, (updateFirst q f l).find? p = l.find? p := by
  intro l
  induction l with
  | nil => rfl
  | cons x xs ih =>
    by_cases hqx : q x = true
    · have hpx : p x = false := by
        by_cases h : p x = true
        · rw [hpq x h] at hqx; exact absurd hqx (by simp)
        · simpa using h
      have hpfx : p (f x) = false := by rw [hf x, hpx]
      simp [updateFirst, hqx, List.find?_cons, hpfx, hpx]
    · simp only [Bool.not_eq_true] at hqx
      by_cases hpx : p x = true
      · simp [updateFirst, hqx, List.find?_cons, hpx]
      · simp only [Bool.not_eq_true] at hpx
        simp [updateFirst, hqx, List.find?_cons, hpx, ih]

/-! ### Claim theorems -/

/-- Claim C3: a withdrawal whose amount strictly exceeds the current
balance fails with the insufficient-funds error, and the state — balance
and transaction history — is returned unchanged. -/
theorem withdraw_over_balance_fails_unchanged (s : BankState) (uid : Nat)
    (amount : ℚ) (d : String) (now hour dayStart : Nat) (m : Bool)
    (f : FraudCtx → Except String (Int × ℚ)) (u : Account)
    (hu : find_user_by_id s uid = some u) (hb : 0 ≤ u.balance)
    (hlt : u.balance < amount) :
    withdraw s uid amount d now hour dayStart m f = (s, WithdrawResp.insufficient) := by
  have hpos : ¬ amount ≤ 0 := by linarith
  simp [withdraw, hpos, hu, hlt]

/-- Witness for C3: a concrete over-balance withdrawal is rejected with
the state intact. -/
theorem withdraw_over_balance_fails_unchanged_witness :
    withdraw exScenarioState 1 1800 "w" 100 2 0 false exFailingModelRun
      = (exScenarioState, WithdrawResp.insufficient) :=
  withdraw_over_balance_fails_unchanged exScenarioState 1 1800 "w" 100 2 0 false
    exFailingModelRun exAccount (by decide) (by norm_num [exAccount])
    (by norm_num [exAccount])

/-- Claim C7: a deposit of a non-positive amount, or of an amount above
the 1000000 per-transaction ceiling, fails with no state change; a valid
deposit raises the balance by exactly the amount and appends exactly one
credit transaction with fraud_score 0 and is_flagged false. -/
theorem deposit_spec (s : BankState) (uid : Nat) (amount : ℚ) (d : String)
    (now : Nat) (u : Account) :
    (amount ≤ 0 → deposit s uid amount d now = (s, DepositResp.amountNotPositive)) ∧
    (1000000 < amount → deposit s uid amount d now = (s, DepositResp.overLimit)) ∧
    (find_user_by_id s uid = some u → 0 < amount → amount ≤ 1000000 →
      (deposit s uid amount d now).2 = DepositResp.ok amount (u.balance + amount) ∧
      find_user_by_id (deposit s uid amount d now).1 uid
        = some { u with balance := u.balance + amount } ∧
      (deposit s uid amount d now).1.transactions = s.transactions ++
        [{ user_id := uid, type := TxnType.credit, amount := amount,
           description := d, balance_after := u.balance + amount,
           related_account := none, is_flagged := false, fraud_score := 0,
           timestamp := now }]) := by
  refine ⟨fun hle => by simp [deposit, hle], fun hover => ?_, fun hu hpos hle => ?_⟩
  · have hnle : ¬ amount ≤ 0 := by linarith
    simp [deposit, hnle, hover]
  · have hnle : ¬ amount ≤ 0 := by linarith
    have hnover : ¬ 1000000 < amount := by linarith
    refine ⟨by simp [deposit, hnle, hnover, hu], ?_, by simp [deposit, hnle, hnover, hu, add_txn, set_balance]⟩
    have hfind := find?_updateFirst_self (fun x : Account => x.id == uid)
      (fun x => { x with balance := u.balance + amount }) (fun x => rfl) s.users
    simp only [find_user_by_id] at hu
    simp [deposit, hnle, hnover, hu, add_txn, set_balance, find_user_by_id, hfind]

/-- Witness for C7: a concrete valid deposit of 500 onto balance 1500. -/
theorem deposit_spec_witness :
    (deposit exScenarioState 1 500 "dep" 7).2 = DepositResp.ok 500 2000 ∧
    find_user_by_id (deposit exScenarioState 1 500 "dep" 7).1 1
      = some { exAccount with balance := 2000 } := by
  have h := (deposit_spec exScenarioState 1 500 "dep" 7 exAccount).2.2
    (by decide) (by norm_num) (by norm_num)
  refine ⟨?_, ?_⟩
  · have := h.1
    norm_num [exAccount] at this ⊢
    exact this
  · have := h.2.1
    norm_num [exAccount] at this ⊢
    exact this

/-- Claim C9: an internal failure of the model scoring step never
propagates out of predict_fraud: whenever the load-and-predict step
fails, the result is the safe default verdict with is_fraud false and
fraud_score 0. -/
theorem predict_fraud_safe_default (modelRun : FraudCtx → Except String (Int × ℚ))
    (ctx : FraudCtx) (e : String) (h : modelRun ctx = Except.error e) :
    predict_fraud true modelRun ctx
      = { is_fraud := false, fraud_score := 0, model := "fallback_error" } := by
  simp [predict_fraud, h]

/-- Witness for C9: a concretely failing model run yields the safe
default verdict. -/
theorem predict_fraud_safe_default_witness :
    predict_fraud true exFailingModelRun
        { amount := 400, hour := 2, balance_before := 1500,
          transaction_count_today := 12 }
      = { is_fraud := false, fraud_score := 0, model := "fallback_error" } :=
  predict_fraud_safe_default exFailingModelRun
    { amount := 400, hour := 2, balance_before := 1500,
      transaction_count_today := 12 } "model fault" rfl

/-- Claim C10: under the rule-based fallback, the verdict is fraudulent
exactly when the rule-based score reaches the one-half threshold, and the
score is the capped sum of the four fixed weights 3/10, 1/5, 1/4, 1/4 for
the ratio, hour, frequency and absolute-amount conditions. -/
theorem rule_based_threshold_and_weights
    (modelRun : FraudCtx → Except String (Int × ℚ)) (ctx : FraudCtx) :
    ((predict_fraud false modelRun ctx).is_fraud = true ↔
      1/2 ≤ rule_based_fraud_score ctx) ∧
    rule_based_fraud_score ctx =
      min ((if 0 < ctx.balance_before ∧ 4/5 < ctx.amount / ctx.balance_before
              then (3 : ℚ)/10 else 0)
        + (if 0 ≤ ctx.hour ∧ ctx.hour ≤ 5 then (1 : ℚ)/5 else 0)
        + (if 10 < ctx.transaction_count_today then (1 : ℚ)/4 else 0)
        + (if 100000 < ctx.amount then (1 : ℚ)/4 else 0)) 1 ∧
    (predict_fraud false modelRun ctx).fraud_score
      = roundTo4 (rule_based_fraud_score ctx) := by
  refine ⟨by simp [predict_fraud], ?_, by simp [predict_fraud]⟩
  unfold rule_based_fraud_score
  split_ifs <;> norm_num

/-- Counterexample to claim C8: in the spec scenario (balance 1500,
withdraw 400 at hour 2, twelve same-day transactions, rule-based
fallback), the withdrawal succeeds with balance 1100 but the recorded
debit is NOT flagged: the rule-based score is 1/5 + 1/4 = 9/20, which is
below the one-half flagging threshold. -/
theorem scenario_withdraw_not_flagged :
    (withdraw exScenarioState 1 400 "w" 100 2 0 false exFailingModelRun).2
      = WithdrawResp.ok 400 1100 false ∧
    ((withdraw exScenarioState 1 400 "w" 100 2 0 false
        exFailingModelRun).1.transactions.getLast?).map (fun t => t.is_flagged)
      ≠ some true := by
  norm_num [withdraw, exScenarioState, exAccount, exEarlierTxn, exFailingModelRun,
    find_user_by_id, set_balance, add_txn, updateFirst, predict_fraud,
    rule_based_fraud_score, roundTo4, List.replicate]

/-- Claim C8 as amended: the scenario withdrawal succeeds, leaves balance
1100, and records a debit transaction carrying the nonzero fraud score
9/20 with is_flagged false, the score being below the one-half
threshold of the rule-based fallback. -/
theorem scenario_withdraw_amended :
    (withdraw exScenarioState 1 400 "w" 100 2 0 false exFailingModelRun).2
      = WithdrawResp.ok 400 1100 false ∧
    find_user_by_id
        (withdraw exScenarioState 1 400 "w" 100 2 0 false exFailingModelRun).1 1
      = some { exAccount with balance := 1100 } ∧
    (withdraw exScenarioState 1 400 "w" 100 2 0 false
        exFailingModelRun).1.transactions.getLast?
      = some { user_id := 1, type := TxnType.debit, amount := 400,
               description := "w", balance_after := 1100,
               related_account := none, is_flagged := false,
               fraud_score := 9/20, timestamp := 100 } ∧
    ((9 : ℚ)/20 ≠ 0 ∧ (9 : ℚ)/20 < 1/2) := by
  norm_num [withdraw, exScenarioState, exAccount, exEarlierTxn, exFailingModelRun,
    find_user_by_id, set_balance, add_txn, updateFirst, predict_fraud,
    rule_based_fraud_score, roundTo4, List.replicate]

/-- Claim C1: viewing a user account under a permission token succeeds
only if the token verifies (signature and expiry) and the backing access
request is currently granted; a verified token whose backing request is
not granted is rejected as revoked, and a verified token whose embedded
admin or user id differs from the claimed identity is rejected as a
mismatch. -/
theorem view_requires_valid_token_and_live_grant (s : BankState)
    (secret identity_user_id user_id now : Nat) (tok : SignedToken) :
    (view_user_account s secret identity_user_id user_id (some tok) now = ViewResp.ok →
      ∃ payload, verify_permission_token secret now tok = some payload ∧
        ∃ r ∈ s.accessReqs, r.id = payload.request_id ∧ r.status = ReqStatus.granted) ∧
    (∀ payload, verify_permission_token secret now tok = some payload →
      payload.admin_id = identity_user_id → payload.user_id = user_id →
      (∀ r ∈ s.accessReqs, r.id = payload.request_id → r.status ≠ ReqStatus.granted) →
      view_user_account s secret identity_user_id user_id (some tok) now
        = ViewResp.accessRevoked) ∧
    (∀ payload, verify_permission_token secret now tok = some payload →
      (payload.admin_id ≠ identity_user_id ∨ payload.user_id ≠ user_id) →
      view_user_account s secret identity_user_id user_id (some tok) now
        = ViewResp.tokenMismatch) := by
  refine ⟨?_, ?_, ?_⟩
  · intro hok
    simp only [view_user_account] at hok
    cases hver : verify_permission_token secret now tok with
    | none => rw [hver] at hok; exact absurd hok (by simp)
    | some payload =>
      simp only [hver] at hok
      refine ⟨payload, rfl, ?_⟩
      by_cases hmm : payload.admin_id ≠ identity_user_id ∨ payload.user_id ≠ user_id
      · rw [if_pos hmm] at hok; exact absurd hok (by simp)
      · rw [if_neg hmm] at hok
        cases hfind : s.accessReqs.find? (fun r =>
            r.id == payload.request_id && r.status == ReqStatus.granted) with
        | none => rw [hfind] at hok; exact absurd hok (by simp)
        | some r =>
          have hmem := List.mem_of_find?_eq_some hfind
          have hpr := List.find?_some hfind
          simp only [Bool.and_eq_true, beq_iff_eq] at hpr
          exact ⟨r, hmem, hpr.1, hpr.2⟩
  · intro payload hver ha hu hnone
    have hfind : s.accessReqs.find? (fun r =>
        r.id == payload.request_id && r.status == ReqStatus.granted) = none := by
      rw [List.find?_eq_none]
      intro r hr hpr
      simp only [Bool.and_eq_true, beq_iff_eq] at hpr
      exact hnone r hr hpr.1 hpr.2
    have hmm : ¬ (payload.admin_id ≠ identity_user_id ∨ payload.user_id ≠ user_id) := by
      simp [ha, hu]
    simp only [view_user_account, hver]
    rw [if_neg hmm, hfind]
  · intro payload hver hmm
    simp only [view_user_account, hver]
    rw [if_pos hmm]

/-- Witness for C1: a concrete verified token whose backing request has
been flipped to denied is rejected as revoked. -/
theorem view_requires_valid_token_and_live_grant_witness :
    view_user_account
        { users := [exAccount], transactions := [],
          accessReqs := [{ exPendingReq with status := ReqStatus.denied }],
          nextReqId := 1 }
        7 5 1 (some (generate_permission_token 7 5 1 0 40)) 50
      = ViewResp.accessRevoked := by
  have h := (view_requires_valid_token_and_live_grant
      { users := [exAccount], transactions := [],
        accessReqs := [{ exPendingReq with status := ReqStatus.denied }],
        nextReqId := 1 }
      7 5 1 50 (generate_permission_token 7 5 1 0 40)).2.1
    (generate_permission_token 7 5 1 0 40).payload (by decide) (by decide) (by decide)
    (by decide)
  exact h

/-- Counterexample to claim C4: the grant handler takes no caller
identity and checks no ownership, so a caller other than the owning
account (caller 2, owner 1) still moves the pending request to granted. -/
theorem grant_by_non_owner_changes_status :
    (exLivePendingState.accessReqs.map (fun r => r.status)) = [ReqStatus.pending] ∧
    (exLivePendingState.accessReqs.map (fun r => r.user_id)) = [1] ∧
    (2 : Nat) ≠ 1 ∧
    (grant_access_as 2 exLivePendingState 7 0 50).2 = GrantResp.ok ∧
    ((grant_access_as 2 exLivePendingState 7 0 50).1.accessReqs.map
      (fun r => r.status)) = [ReqStatus.granted] := by
  decide

/-- Claim C4 as amended: the grant and deny handlers read only the
request id — they are reachable without authentication and their outcome
is identical for every caller; in particular any caller, owner or not,
moves a pending unexpired request to granted by invoking grant. -/
theorem grant_deny_ignore_caller (caller : Nat) (s : BankState)
    (secret rid now : Nat) (req : AccessReq)
    (hfind : s.accessReqs.find? (fun r => r.id == rid) = some req)
    (hp : req.status = ReqStatus.pending)
    (hexp : ¬ req.expires_at < now) :
    (∀ c, grant_access_as c s secret rid now = grant_access_as caller s secret rid now) ∧
    (∀ c, deny_access_as c s rid now = deny_access_as caller s rid now) ∧
    (grant_access_as caller s secret rid now).2 = GrantResp.ok ∧
    ((grant_access_as caller s secret rid now).1.accessReqs.find?
        (fun r => r.id == rid)).map (fun r => r.status) = some ReqStatus.granted := by
  refine ⟨fun c => rfl, fun c => rfl, ?_, ?_⟩
  · simp only [grant_access_as, grant_access, hfind]
    rw [hp]
    simp [hexp]
  · simp only [grant_access_as, grant_access, hfind]
    rw [hp]
    simp only [ne_eq, not_true_eq_false, if_false, if_neg hexp]
    rw [find?_updateFirst_self (fun r : AccessReq => r.id == rid) (fun r => { r with status := ReqStatus.granted, permission_token := some (generate_permission_token secret req.admin_id req.user_id rid now), granted_at := some now }) (fun x => rfl), hfind]
    rfl

/-- Witness for C4 as amended: caller 2, who is not owner 1, grants the
live pending request. -/
theorem grant_deny_ignore_caller_witness :
    (grant_access_as 2 exLivePendingState 7 0 50).2 = GrantResp.ok ∧
    ((grant_access_as 2 exLivePendingState 7 0 50).1.accessReqs.find?
        (fun r => r.id == 0)).map (fun r => r.status) = some ReqStatus.granted := by
  have h := grant_deny_ignore_caller 2 exLivePendingState 7 0 50
    { exPendingReq with expires_at := 1000 } (by decide) (by decide) (by decide)
  exact ⟨h.2.2.1, h.2.2.2⟩

/-- Counterexample to claim C5: deny on a pending request already past
its expiry (expires_at 10, now 50) neither fails with the expiry error
nor flips the status to expired: it succeeds and sets the status to
denied. -/
theorem deny_on_expired_pending_denies :
    exPendingReq.status = ReqStatus.pending ∧
    exPendingReq.expires_at = 10 ∧ (10 : Nat) < 50 ∧
    (deny_access exExpiredPendingState 0 50).2 = DenyResp.ok ∧
    ((deny_access exExpiredPendingState 0 50).1.accessReqs.map
      (fun r => r.status)) = [ReqStatus.denied] := by
  decide

/-- Claim C5 as amended: only the grant path checks expiry. Granting an
expired pending request fails with the expiry error and flips the status
to expired; denying the same request succeeds and sets it to denied. -/
theorem expiry_check_on_grant_only (s : BankState) (secret rid now : Nat)
    (req : AccessReq)
    (hfind : s.accessReqs.find? (fun r => r.id == rid) = some req)
    (hp : req.status = ReqStatus.pending)
    (hexp : req.expires_at < now) :
    (grant_access s secret rid now).2 = GrantResp.expired ∧
    ((grant_access s secret rid now).1.accessReqs.find?
        (fun r => r.id == rid)).map (fun r => r.status) = some ReqStatus.expired ∧
    (deny_access s rid now).2 = DenyResp.ok ∧
    ((deny_access s rid now).1.accessReqs.find?
        (fun r => r.id == rid)).map (fun r => r.status) = some ReqStatus.denied := by
  refine ⟨?_, ?_, ?_, ?_⟩
  · simp only [grant_access, hfind]
    rw [hp]
    simp [hexp]
  · simp only [grant_access, hfind]
    rw [hp]
    simp only [ne_eq, not_true_eq_false, if_false, if_pos hexp]
    rw [find?_updateFirst_self (fun r : AccessReq => r.id == rid) (fun r => { r with status := ReqStatus.expired }) (fun x => rfl), hfind]
    rfl
  · simp only [deny_access, hfind]
    rw [hp]
    simp
  · simp only [deny_access, hfind]
    rw [hp]
    simp only [ne_eq, not_true_eq_false, if_false]
    rw [find?_updateFirst_self (fun r : AccessReq => r.id == rid) (fun r => { r with status := ReqStatus.denied, denied_at := some now }) (fun x => rfl), hfind]
    rfl

/-- Witness for C5 as amended: the concrete expired pending request. -/
theorem expiry_check_on_grant_only_witness :
    (grant_access exExpiredPendingState 7 0 50).2 = GrantResp.expired ∧
    (deny_access exExpiredPendingState 0 50).2 = DenyResp.ok := by
  have h := expiry_check_on_grant_only exExpiredPendingState 7 0 50 exPendingReq
    (by decide) (by decide) (by decide)
  exact ⟨h.1, h.2.2.1⟩

/-- Claim C6: a request-access call that would otherwise succeed (valid
reason, existing target) while an earlier request by the same admin for
the same account is still pending fails with the duplicate-pending
conflict and changes nothing; and request_access preserves the invariant
that each (admin, account) pair has at most one pending request. -/
theorem at_most_one_pending_per_pair (s : BankState) (a u : Nat)
    (reason : String) (now : Nat) :
    ((∃ r ∈ s.accessReqs, r.admin_id = a ∧ r.user_id = u ∧
        r.status = ReqStatus.pending) →
      10 ≤ (pyStrip reason).length →
      (s.users.find? (fun x => x.id == u && x.role == Role.user)).isSome →
      request_access s a u reason now = (s, RequestAccessResp.duplicatePending)) ∧
    (atMostOnePending s → atMostOnePending (request_access s a u reason now).1) := by
  constructor
  · rintro ⟨r, hr, ha, hu, hst⟩ hlen htarget
    have hnlen : ¬ (pyStrip reason).length < 10 := by omega
    obtain ⟨tu, htu⟩ := Option.isSome_iff_exists.mp htarget
    cases hfind : s.accessReqs.find? (fun x => x.admin_id == a && x.user_id == u
        && x.status == ReqStatus.pending) with
    | none =>
      have := List.find?_eq_none.mp hfind r hr
      simp [ha, hu, hst] at this
    | some r' =>
      simp only [request_access, if_neg hnlen, htu, hfind]
  · intro hinv
    by_cases hlen : (pyStrip reason).length < 10
    · simpa only [request_access, if_pos hlen] using hinv
    · cases htu : s.users.find? (fun x => x.id == u && x.role == Role.user) with
      | none => simpa only [request_access, if_neg hlen, htu] using hinv
      | some tu =>
        cases hfind : s.accessReqs.find? (fun x => x.admin_id == a && x.user_id == u
            && x.status == ReqStatus.pending) with
        | some r' => simpa only [request_access, if_neg hlen, htu, hfind] using hinv
        | none =>
          intro a' u'
          simp only [request_access, if_neg hlen, htu, hfind, pendingFor,
            List.filter_append, List.length_append]
          by_cases hpair : a' = a ∧ u' = u
          · obtain ⟨h1, h2⟩ := hpair
            subst h1; subst h2
            have hnil : List.filter (fun x : AccessReq => x.admin_id == a'
                && x.user_id == u' && x.status == ReqStatus.pending)
                s.accessReqs = [] := by
              rw [List.filter_eq_nil_iff]
              intro x hx
              exact List.find?_eq_none.mp hfind x hx
            rw [hnil]
            simp
          · have hone : List.filter (fun x : AccessReq => x.admin_id == a'
                && x.user_id == u' && x.status == ReqStatus.pending)
                [{ id := s.nextReqId, admin_id := a, user_id := u,
                   reason := pyStrip reason, status := ReqStatus.pending,
                   permission_token := none, requested_at := now,
                   expires_at := now + 86400, granted_at := none,
                   denied_at := none }] = [] := by
              rw [List.filter_eq_nil_iff]
              intro x hx
              simp only [List.mem_singleton] at hx
              subst hx
              intro hcontra
              simp only [Bool.and_eq_true, beq_iff_eq] at hcontra
              apply hpair
              omega
            rw [hone]
            simpa [pendingFor] using hinv a' u'

/-- Witness for C6: a second request by admin 5 for account 1 while the
first is pending is rejected with the state unchanged. -/
theorem at_most_one_pending_per_pair_witness :
    request_access exExpiredPendingState 5 1 "0123456789" 3
      = (exExpiredPendingState, RequestAccessResp.duplicatePending) :=
  (at_most_one_pending_per_pair exExpiredPendingState 5 1 "0123456789" 3).1
    (by decide) (by decide) (by decide)

/-- Claim C2: a valid transfer (positive amount, recipient exists and is
not the sender, amount within the sender balance) debits the sender by
exactly the amount, credits the recipient by exactly the amount, and
appends exactly two transactions — a debit for the sender and a credit
for the recipient — sharing the timestamp, each referencing the account
number of the other party; in this sequential embedding no other outcome
is produced, so both legs appear together. -/
theorem transfer_spec (s : BankState) (sender_id acct : Nat) (amount : ℚ)
    (d : String) (now : Nat) (sender recipient : Account)
    (hs : find_user_by_id s sender_id = some sender)
    (hracct : find_user_by_acct s acct = some recipient)
    (hrid : find_user_by_id s recipient.id = some recipient)
    (hne : sender.id ≠ recipient.id)
    (hpos : 0 < amount)
    (hle : amount ≤ sender.balance) :
    (transfer s sender_id (some acct) amount d now).2
      = TransferResp.ok amount (sender.balance - amount) ∧
    find_user_by_id (transfer s sender_id (some acct) amount d now).1 sender.id
      = some { sender with balance := sender.balance - amount } ∧
    find_user_by_id (transfer s sender_id (some acct) amount d now).1 recipient.id
      = some { recipient with balance := recipient.balance + amount } ∧
    (transfer s sender_id (some acct) amount d now).1.transactions
      = s.transactions ++
        [{ user_id := sender.id, type := TxnType.debit, amount := amount,
           description := "Transfer to " ++ toString recipient.accountNumber
             ++ " - " ++ d,
           balance_after := sender.balance - amount, related_account := some acct,
           is_flagged := false, fraud_score := 0, timestamp := now },
         { user_id := recipient.id, type := TxnType.credit, amount := amount,
           description := "Transfer from " ++ toString sender.accountNumber
             ++ " - " ++ d,
           balance_after := recipient.balance + amount,
           related_account := some sender.accountNumber,
           is_flagged := false, fraud_score := 0, timestamp := now }] ∧
    acct = recipient.accountNumber := by
  have hsid : sender.id = sender_id := by simpa using List.find?_some hs
  have hacct : recipient.accountNumber = acct := by simpa using List.find?_some hracct
  subst hsid
  subst hacct
  have hneg : ¬ amount ≤ 0 := by linarith
  have hnb : ¬ sender.balance < amount := by linarith
  have hbeq : (sender.id == recipient.id) = false := beq_eq_false_iff_ne.mpr hne
  have hpq : ∀ x : Account, (x.id == sender.id) = true → (x.id == recipient.id) = false := by
    intro x hx
    rw [beq_iff_eq] at hx
    rw [beq_eq_false_iff_ne, hx]
    exact hne
  have hqp : ∀ x : Account, (x.id == recipient.id) = true → (x.id == sender.id) = false := by
    intro x hx
    rw [beq_iff_eq] at hx
    rw [beq_eq_false_iff_ne, hx]
    exact Ne.symm hne
  refine ⟨?_, ?_, ?_, ?_, rfl⟩
  · simp only [transfer, if_neg hneg, hs, hracct, hbeq, Bool.false_eq_true,
      if_false, if_neg hnb]
  · simp only [transfer, if_neg hneg, hs, hracct, hbeq, Bool.false_eq_true,
      if_false, if_neg hnb]
    simp only [add_txn, set_balance, find_user_by_id]
    rw [find?_updateFirst_of_disjoint (fun x : Account => x.id == sender.id) (fun x : Account => x.id == recipient.id) (fun u => { u with balance := recipient.balance + amount }) (fun x => rfl) hpq]
    rw [find?_updateFirst_self (fun x : Account => x.id == sender.id) (fun u => { u with balance := sender.balance - amount }) (fun x => rfl)]
    rw [show s.users.find? (fun u : Account => u.id == sender.id) = some sender from hs]
    rfl
  · simp only [transfer, if_neg hneg, hs, hracct, hbeq, Bool.false_eq_true,
      if_false, if_neg hnb]
    simp only [add_txn, set_balance, find_user_by_id]
    rw [find?_updateFirst_self (fun x : Account => x.id == recipient.id) (fun u => { u with balance := recipient.balance + amount }) (fun x => rfl)]
    rw [find?_updateFirst_of_disjoint (fun x : Account => x.id == recipient.id) (fun x : Account => x.id == sender.id) (fun u => { u with balance := sender.balance - amount }) (fun x => rfl) hqp]
    rw [show s.users.find? (fun u : Account => u.id == recipient.id) = some recipient from hrid]
    rfl
  · simp only [transfer, if_neg hneg, hs, hracct, hbeq, Bool.false_eq_true,
      if_false, if_neg hnb]
    simp only [add_txn, set_balance]
    simp [List.append_assoc]

/-- Witness for C2: transferring 400 from account 1 (balance 1500) to
account number 22 (account 2, balance 100). -/
theorem transfer_spec_witness :
    (transfer exTwoUserState 1 (some 22) 400 "t" 9).2 = TransferResp.ok 400 1100 ∧
    find_user_by_id (transfer exTwoUserState 1 (some 22) 400 "t" 9).1 2
      = some { exRecipient with balance := 500 } := by
  have h := transfer_spec exTwoUserState 1 22 400 "t" 9 exAccount exRecipient
    (by decide) (by decide) (by decide) (by decide) (by norm_num)
    (by norm_num [exAccount])
  constructor
  · have h1 := h.1
    norm_num [exAccount] at h1
    exact h1
  · have h3 := h.2.2.1
    norm_num [exAccount, exRecipient] at h3 ⊢
    exact h3

end SecureBank
